import Mathlib

/-!
Shallow embedding of the mcp-image-validator repository (Python):
  - src/ollama_vision_client.py : class OllamaVisionClient with
    SUPPORTED_FORMATS, _get_mime_type, _validate_image, _encode_image,
    describe_image, check_connection
  - src/server.py : bootstrap (OLLAMA_API_KEY check, client construction)
    and the MCP tool describe_image

Python exceptions are modelled as an inductive of (exception class, message);
filesystem and network effects are modelled by an explicit file-state record
and a remote-outcome parameter; the sequence of side-effecting steps that a
call performs is recorded as an explicit event trace.
-/

/-- Python exception values raised by the code, as (class, message) pairs.
The classes that appear in the two source files are FileNotFoundError,
ValueError, IOError (OSError) and RuntimeError. -/
inductive PyExc where
  | fileNotFoundError (msg : String)
  | valueError (msg : String)
  | ioError (msg : String)
  | runtimeError (msg : String)
deriving DecidableEq, Repr

/-- Message text of an exception: models Python str(e) for single-argument
exceptions of the classes above. -/
def PyExc.msg : PyExc → String
  | .fileNotFoundError m => m
  | .valueError m => m
  | .ioError m => m
  | .runtimeError m => m

/-- State of the filesystem entry named by the image path, as observed by the
calls the code makes: Path.exists(), Path.is_file(), Path.suffix, PIL
Image.open/verify (success flag plus the exception text on failure),
open/read (success flag, exception text on failure, and the bytes read). -/
structure FileModel where
  suffix : String
  pathExists : Bool
  isFile : Bool
  bytes : List Nat
  pilValid : Bool
  pilErr : String
  readOk : Bool
  readErr : String
deriving DecidableEq, Repr

/-- Outcome of the remote chat-completions call
self.client.chat.completions.create(...): either the call raises (msg is the
Python str of the raised exception) or it returns a response whose
choices[0].message.content is the given Option String (none models a null
content field). -/
inductive RemoteOutcome where
  | raises (msg : String)
  | responds (content : Option String)
deriving DecidableEq, Repr

/-- Outcome of the remote models.list() call made by check_connection:
either it raises (with str(e) = msg) or it succeeds. -/
inductive ListOutcome where
  | raises (msg : String)
  | ok
deriving DecidableEq, Repr

/-- Client configuration stored by OllamaVisionClient.__init__ (lines 50-54 of
ollama_vision_client.py). The temperature is passed through unchanged by the
code, so it is modelled as a rational number. -/
structure OllamaVisionClient where
  api_key : String
  base_url : String
  model : String
  temperature : ℚ
  max_tokens : Nat
deriving DecidableEq, Repr

/-- The constructor OllamaVisionClient.__init__ (lines 32-64): stores the five
configuration fields and builds the OpenAI transport object. Its body contains
no raise statement and no validation of api_key, so in the model it always
succeeds. It is given the Except return type because a Python constructor can
in principle raise; this one never does. -/
def OllamaVisionClient.init (api_key : String)
    (base_url : String := "https://ollama.com/v1")
    (model : String := "qwen3-vl:235b-cloud")
    (temperature : ℚ := 0.2)
    (max_tokens : Nat := 1000) : Except PyExc OllamaVisionClient :=
  .ok { api_key := api_key, base_url := base_url, model := model,
        temperature := temperature, max_tokens := max_tokens }

/-- SUPPORTED_FORMATS (lines 23-30), an insertion-ordered dict from extension
to MIME type. -/
def SUPPORTED_FORMATS : List (String × String) :=
  [(".jpg", "image/jpeg"),
   (".jpeg", "image/jpeg"),
   (".png", "image/png"),
   (".gif", "image/gif"),
   (".webp", "image/webp"),
   (".bmp", "image/bmp")]

/-- The keys of SUPPORTED_FORMATS in dict order, as joined into the
UnsupportedFormat error message. -/
def supportedKeys : List String := SUPPORTED_FORMATS.map Prod.fst

/-- Python str.lower applied to a file suffix, modelled characterwise (file
extensions are ASCII, on which Char.toLower agrees with str.lower). -/
def pyLower (s : String) : String := String.mk (s.data.map Char.toLower)

/-- Method _get_mime_type (lines 66-69): lowercase the suffix, look it up in
SUPPORTED_FORMATS, default to image/jpeg. -/
def get_mime_type (suffix : String) : String :=
  (SUPPORTED_FORMATS.lookup (pyLower suffix)).getD "image/jpeg"

/-- The error message built at lines 75-78 for an unsupported extension. -/
def unsupportedFormatMsg (ext : String) : String :=
  "Unsupported image format: " ++ ext ++ ". Supported formats: " ++
    String.intercalate ", " supportedKeys

/-- The extension test at lines 73-78 of _validate_image: lowercase the
suffix and require membership in SUPPORTED_FORMATS. -/
def extension_check (suffix : String) : Except PyExc Unit :=
  let ext := pyLower suffix
  if (SUPPORTED_FORMATS.lookup ext).isSome then .ok ()
  else .error (.valueError (unsupportedFormatMsg ext))

/-- Steps of the describe_image pipeline that touch the filesystem or the
network, in the order the code performs them: the Path.exists() stat, the
extension test, the PIL open/verify decode, the open/read/base64 encode, and
the remote chat-completions dispatch. -/
inductive Event where
  | existsCheck
  | extCheck
  | decodeCheck
  | readEncode
  | dispatch
deriving DecidableEq, Repr

/-- The full pipeline order. -/
def canonicalOrder : List Event :=
  [.existsCheck, .extCheck, .decodeCheck, .readEncode, .dispatch]

/-- Method _validate_image (lines 71-85): extension test first, then the PIL
integrity check; paired with the events it performs. -/
def validate_image (f : FileModel) : Except PyExc Unit × List Event :=
  match extension_check f.suffix with
  | .error e => (.error e, [.extCheck])
  | .ok () =>
    if f.pilValid then (.ok (), [.extCheck, .decodeCheck])
    else (.error (.valueError ("Invalid or corrupted image file: " ++ f.pilErr)),
          [.extCheck, .decodeCheck])

/-- The standard base64 alphabet. -/
def base64Chars : List Char :=
  "ABCDEFGHIJKLMNOPQRSTUVWXYZabcdefghijklmnopqrstuvwxyz0123456789+/".toList

/-- Character of the base64 alphabet at index n. -/
def b64Char (n : Nat) : Char := base64Chars.getD n 'A'

/-- Standard padded base64 of a byte list, modelling base64.b64encode
(line 91). -/
def base64Encode : List Nat → String
  | [] => ""
  | [a] =>
    String.mk [b64Char (a / 4), b64Char (a % 4 * 16), '=', '=']
  | [a, b] =>
    String.mk [b64Char (a / 4), b64Char (a % 4 * 16 + b / 16),
               b64Char (b % 16 * 4), '=']
  | a :: b :: c :: rest =>
    String.mk [b64Char (a / 4), b64Char (a % 4 * 16 + b / 16),
               b64Char (b % 16 * 4 + c / 64), b64Char (c % 64)]
      ++ base64Encode rest

/-- Method _encode_image (lines 87-95): read the file bytes and base64-encode
them; a read failure is wrapped into IOError. -/
def encode_image (f : FileModel) : Except PyExc String :=
  if f.readOk then .ok (base64Encode f.bytes)
  else .error (.ioError ("Failed to read image file: " ++ f.readErr))

/-- The literal default prompt at line 131. -/
def DEFAULT_PROMPT : String := "Describe this image in detail."

/-- Line 131, user_prompt = prompt or DEFAULT: Python or treats both None and
the empty string as falsy. -/
def resolvePrompt : Option String → String
  | none => DEFAULT_PROMPT
  | some s => if s = "" then DEFAULT_PROMPT else s

/-- One typed content part of a chat message (lines 144-155). -/
inductive ContentPart where
  | text (s : String)
  | image_url (url : String)
deriving DecidableEq, Repr

/-- A role-tagged chat message. -/
structure ChatMessage where
  role : String
  content : List ContentPart
deriving DecidableEq, Repr

/-- The outgoing chat-completion request built at lines 139-160. -/
structure ChatRequest where
  model : String
  messages : List ChatMessage
  temperature : ℚ
  max_tokens : Nat
deriving DecidableEq, Repr

/-- The request describe_image builds for a given client, file, and prompt
(lines 139-160): one user message with a text part and a data-URI image part,
plus the configured model, temperature and max_tokens. -/
def buildRequest (c : OllamaVisionClient) (f : FileModel)
    (prompt : Option String) : ChatRequest :=
  { model := c.model,
    messages :=
      [{ role := "user",
         content :=
           [.text (resolvePrompt prompt),
            .image_url ("data:" ++ get_mime_type f.suffix ++ ";base64," ++
              base64Encode f.bytes)] }],
    temperature := c.temperature,
    max_tokens := c.max_tokens }

/-- Result of one describe_image call: the returned value or raised exception,
the trace of pipeline steps performed, and the request dispatched to the
remote endpoint (none when the pipeline aborted before dispatch). -/
structure RunResult where
  result : Except PyExc String
  trace : List Event
  sent : Option ChatRequest
deriving Repr

/-- Method describe_image (lines 97-174). The steps mirror the source:
existence test (raising FileNotFoundError), _validate_image, _encode_image,
prompt resolution and request construction, dispatch, and response handling.
The try block at lines 137-174 wraps the dispatch, the content extraction and
the emptiness test, and its except clause re-raises every exception e as
RuntimeError with message "Ollama Cloud API error: " ++ str(e) - including
the RuntimeError("Empty response from vision model") raised at line 166. -/
def describe_image (c : OllamaVisionClient) (image_path : String)
    (prompt : Option String) (f : FileModel) (remote : RemoteOutcome) :
    RunResult :=
  if f.pathExists = false then
    { result := .error (.fileNotFoundError ("Image file not found: " ++ image_path)),
      trace := [.existsCheck], sent := none }
  else
    match validate_image f with
    | (.error e, ev) =>
      { result := .error e, trace := .existsCheck :: ev, sent := none }
    | (.ok (), ev) =>
      match encode_image f with
      | .error e =>
        { result := .error e, trace := .existsCheck :: ev ++ [.readEncode],
          sent := none }
      | .ok _ =>
        let req := buildRequest c f prompt
        match remote with
        | .raises m =>
          { result := .error (.runtimeError ("Ollama Cloud API error: " ++ m)),
            trace := canonicalOrder, sent := some req }
        | .responds content =>
          match content with
          | none =>
            { result := .error (.runtimeError
                ("Ollama Cloud API error: Empty response from vision model")),
              trace := canonicalOrder, sent := some req }
          | some s =>
            if s = "" then
              { result := .error (.runtimeError
                  ("Ollama Cloud API error: Empty response from vision model")),
                trace := canonicalOrder, sent := some req }
            else
              { result := .ok s, trace := canonicalOrder, sent := some req }

/-- Method check_connection (lines 176-191): try models.list(); on success
return (True, "Connected to ..."), on any exception return (False, "Cannot
connect to Ollama Cloud: " ++ str(e)). The except clause catches every
exception, so the method always returns a pair. -/
def check_connection (c : OllamaVisionClient) (listCall : ListOutcome) :
    Bool × String :=
  match listCall with
  | .ok => (true, "Connected to " ++ c.base_url)
  | .raises m => (false, "Cannot connect to Ollama Cloud: " ++ m)

/-- Python truthiness test "if not OLLAMA_API_KEY" at line 37 of server.py:
true for an unset variable and for the empty string. -/
def pyFalsyOptStr : Option String → Bool
  | none => true
  | some s => s == ""

/-- The server bootstrap, server.py lines 31-48: read OLLAMA_API_KEY from the
environment, raise ValueError when it is unset or empty, otherwise construct
the global OllamaVisionClient from the environment-derived configuration. -/
def serverStartup (envApiKey : Option String) (base_url : String)
    (model : String) (temperature : ℚ) (max_tokens : Nat) :
    Except PyExc OllamaVisionClient :=
  if pyFalsyOptStr envApiKey then
    .error (.valueError "OLLAMA_API_KEY not set")
  else
    OllamaVisionClient.init (envApiKey.getD "") base_url model temperature
      max_tokens

/-- The exception translation performed by the except clauses at lines 116-127
of server.py: FileNotFoundError and ValueError get dedicated prefixes, every
other exception (IOError, RuntimeError) falls to the generic clause; all are
re-raised as RuntimeError. -/
def translateCoreExc : PyExc → PyExc
  | .fileNotFoundError m => .runtimeError ("File not found: " ++ m)
  | .valueError m => .runtimeError ("Invalid input: " ++ m)
  | .ioError m => .runtimeError ("Error describing image: " ++ m)
  | .runtimeError m => .runtimeError ("Error describing image: " ++ m)

/-- The MCP tool describe_image, server.py lines 73-127: validate that the
path exists and is a regular file (raising inside the try block, so those
failures also pass through the translation), then delegate to the core
client's describe_image and translate any core exception. The Bool records
whether the core client was invoked. Path.absolute() only renames the same
filesystem entry, so the path string handed to the core is modelled as the
input path. -/
def serverDescribeImage (c : OllamaVisionClient) (image_path : String)
    (prompt : Option String) (f : FileModel) (remote : RemoteOutcome) :
    Except PyExc String × Bool :=
  if f.pathExists = false then
    (.error (translateCoreExc
      (.fileNotFoundError ("Image file not found: " ++ image_path))), false)
  else if f.isFile = false then
    (.error (translateCoreExc
      (.valueError ("Path is not a file: " ++ image_path))), false)
  else
    match (describe_image c image_path prompt f remote).result with
    | .ok d => (.ok d, true)
    | .error e => (.error (translateCoreExc e), true)

/-- A concrete client configuration used as a test fixture. -/
def testClient : OllamaVisionClient :=
  { api_key := "k", base_url := "https://ollama.com/v1", model := "m",
    temperature := 0.2, max_tokens := 1000 }

/-- A concrete well-formed png file state used as a test fixture. -/
def goodFile : FileModel :=
  { suffix := ".png", pathExists := true, isFile := true, bytes := [1, 2, 3],
    pilValid := true, pilErr := "", readOk := true, readErr := "" }

/-- Fixture: the same file state, at a path that does not exist. -/
def missingFile : FileModel := { goodFile with pathExists := false }

/-- Fixture: an existing file whose suffix is ".txt". -/
def txtFile : FileModel := { goodFile with suffix := ".txt" }

/-- Fixture: an existing valid image file whose suffix is ".PNG". -/
def upperPngFile : FileModel := { goodFile with suffix := ".PNG" }

/-- Fixture: the client stored by a successful server startup with key sk-1. -/
def clientSk1 : OllamaVisionClient :=
  { api_key := "sk-1", base_url := "https://ollama.com/v1", model := "m",
    temperature := 0.2, max_tokens := 1000 }

/-! Helper lemmas characterising describe_image branch by branch. -/

theorem describe_image_notfound (c : OllamaVisionClient) (p : String)
    (pr : Option String) (f : FileModel) (r : RemoteOutcome)
    (h : f.pathExists = false) :
    describe_image c p pr f r =
      { result := .error (.fileNotFoundError ("Image file not found: " ++ p)),
        trace := [.existsCheck], sent := none } := by
  simp [describe_image, h]

theorem describe_image_unsupported (c : OllamaVisionClient) (p : String)
    (pr : Option String) (f : FileModel) (r : RemoteOutcome)
    (h1 : f.pathExists = true)
    (h2 : SUPPORTED_FORMATS.lookup (pyLower f.suffix) = none) :
    describe_image c p pr f r =
      { result := .error (.valueError (unsupportedFormatMsg (pyLower f.suffix))),
        trace := [.existsCheck, .extCheck], sent := none } := by
  simp [describe_image, validate_image, extension_check, h1, h2]

theorem describe_image_invalidImage (c : OllamaVisionClient) (p : String)
    (pr : Option String) (f : FileModel) (r : RemoteOutcome)
    (h1 : f.pathExists = true)
    (h2 : (SUPPORTED_FORMATS.lookup (pyLower f.suffix)).isSome)
    (h3 : f.pilValid = false) :
    describe_image c p pr f r =
      { result := .error (.valueError ("Invalid or corrupted image file: " ++ f.pilErr)),
        trace := [.existsCheck, .extCheck, .decodeCheck], sent := none } := by
  simp [describe_image, validate_image, extension_check, h1, h2, h3]

theorem describe_image_readfail (c : OllamaVisionClient) (p : String)
    (pr : Option String) (f : FileModel) (r : RemoteOutcome)
    (h1 : f.pathExists = true)
    (h2 : (SUPPORTED_FORMATS.lookup (pyLower f.suffix)).isSome)
    (h3 : f.pilValid = true) (h4 : f.readOk = false) :
    describe_image c p pr f r =
      { result := .error (.ioError ("Failed to read image file: " ++ f.readErr)),
        trace := [.existsCheck, .extCheck, .decodeCheck, .readEncode],
        sent := none } := by
  simp [describe_image, validate_image, extension_check, encode_image, h1, h2, h3, h4]

theorem describe_image_dispatch (c : OllamaVisionClient) (p : String)
    (pr : Option String) (f : FileModel) (r : RemoteOutcome)
    (h1 : f.pathExists = true)
    (h2 : (SUPPORTED_FORMATS.lookup (pyLower f.suffix)).isSome)
    (h3 : f.pilValid = true) (h4 : f.readOk = true) :
    describe_image c p pr f r =
      { result :=
          match r with
          | .raises m => .error (.runtimeError ("Ollama Cloud API error: " ++ m))
          | .responds none => .error (.runtimeError
              "Ollama Cloud API error: Empty response from vision model")
          | .responds (some s) =>
            if s = "" then
              .error (.runtimeError
                "Ollama Cloud API error: Empty response from vision model")
            else .ok s,
        trace := canonicalOrder, sent := some (buildRequest c f pr) } := by
  rcases r with m | content
  · simp [describe_image, validate_image, extension_check, encode_image, h1, h2, h3, h4]
  · rcases content with _ | s
    · simp [describe_image, validate_image, extension_check, encode_image, h1, h2, h3, h4]
    · by_cases hs : s = "" <;>
        simp [describe_image, validate_image, extension_check, encode_image,
          h1, h2, h3, h4, hs]

theorem describe_image_sent_some (c : OllamaVisionClient) (p : String)
    (pr : Option String) (f : FileModel) (r : RemoteOutcome) (req : ChatRequest)
    (h : (describe_image c p pr f r).sent = some req) :
    req = buildRequest c f pr := by
  cases h1 : f.pathExists with
  | false => rw [describe_image_notfound c p pr f r h1] at h; simp at h
  | true =>
    cases h2 : SUPPORTED_FORMATS.lookup (pyLower f.suffix) with
    | none => rw [describe_image_unsupported c p pr f r h1 h2] at h; simp at h
    | some v =>
      have h2s : (SUPPORTED_FORMATS.lookup (pyLower f.suffix)).isSome := by
        rw [h2]; rfl
      cases h3 : f.pilValid with
      | false => rw [describe_image_invalidImage c p pr f r h1 h2s h3] at h; simp at h
      | true =>
        cases h4 : f.readOk with
        | false => rw [describe_image_readfail c p pr f r h1 h2s h3 h4] at h; simp at h
        | true =>
          rw [describe_image_dispatch c p pr f r h1 h2s h3 h4] at h
          simp at h
          exact h.symm

theorem describe_image_trace_take (c : OllamaVisionClient) (p : String)
    (pr : Option String) (f : FileModel) (r : RemoteOutcome) :
    ∃ k, (describe_image c p pr f r).trace = canonicalOrder.take k := by
  cases h1 : f.pathExists with
  | false => exact ⟨1, by rw [describe_image_notfound c p pr f r h1]; rfl⟩
  | true =>
    cases h2 : SUPPORTED_FORMATS.lookup (pyLower f.suffix) with
    | none => exact ⟨2, by rw [describe_image_unsupported c p pr f r h1 h2]; rfl⟩
    | some v =>
      have h2s : (SUPPORTED_FORMATS.lookup (pyLower f.suffix)).isSome := by
        rw [h2]; rfl
      cases h3 : f.pilValid with
      | false => exact ⟨3, by rw [describe_image_invalidImage c p pr f r h1 h2s h3]; rfl⟩
      | true =>
        cases h4 : f.readOk with
        | false => exact ⟨4, by rw [describe_image_readfail c p pr f r h1 h2s h3 h4]; rfl⟩
        | true => exact ⟨5, by rw [describe_image_dispatch c p pr f r h1 h2s h3 h4]; rfl⟩

theorem describe_image_sent_iff_dispatch (c : OllamaVisionClient) (p : String)
    (pr : Option String) (f : FileModel) (r : RemoteOutcome) :
    (describe_image c p pr f r).sent ≠ none ↔
      Event.dispatch ∈ (describe_image c p pr f r).trace := by
  cases h1 : f.pathExists with
  | false => rw [describe_image_notfound c p pr f r h1]; simp
  | true =>
    cases h2 : SUPPORTED_FORMATS.lookup (pyLower f.suffix) with
    | none => rw [describe_image_unsupported c p pr f r h1 h2]; simp
    | some v =>
      have h2s : (SUPPORTED_FORMATS.lookup (pyLower f.suffix)).isSome := by
        rw [h2]; rfl
      cases h3 : f.pilValid with
      | false => rw [describe_image_invalidImage c p pr f r h1 h2s h3]; simp
      | true =>
        cases h4 : f.readOk with
        | false => rw [describe_image_readfail c p pr f r h1 h2s h3 h4]; simp
        | true =>
          rw [describe_image_dispatch c p pr f r h1 h2s h3 h4]
          simp [canonicalOrder]

/-! Claim theorems. -/

/-- Claim C1: describe_image performs existence check, extension check,
decode check, read-and-encode, and remote dispatch in this fixed order (its
event trace is always an initial segment of the canonical order, so a failing
step aborts every later step); for a non-existent path it fails with
FileNotFoundError having performed only the existence stat (no decode read,
no file read, no network dispatch); for an existing path whose lowercased
extension is unsupported it fails with the extension ValueError and no
dispatch is performed; and a request is sent iff the dispatch step is in the
trace. -/
theorem validation_pipeline_order (c : OllamaVisionClient) (p : String)
    (pr : Option String) (f : FileModel) (r : RemoteOutcome) :
    (∃ k, (describe_image c p pr f r).trace = canonicalOrder.take k)
    ∧ (f.pathExists = false →
        (describe_image c p pr f r).result
          = .error (.fileNotFoundError ("Image file not found: " ++ p))
        ∧ (describe_image c p pr f r).trace = [.existsCheck]
        ∧ Event.decodeCheck ∉ (describe_image c p pr f r).trace
        ∧ Event.readEncode ∉ (describe_image c p pr f r).trace
        ∧ Event.dispatch ∉ (describe_image c p pr f r).trace)
    ∧ (f.pathExists = true →
        SUPPORTED_FORMATS.lookup (pyLower f.suffix) = none →
        (describe_image c p pr f r).result
          = .error (.valueError (unsupportedFormatMsg (pyLower f.suffix)))
        ∧ Event.dispatch ∉ (describe_image c p pr f r).trace)
    ∧ ((describe_image c p pr f r).sent ≠ none ↔
        Event.dispatch ∈ (describe_image c p pr f r).trace) := by
  refine ⟨describe_image_trace_take c p pr f r, ?_, ?_,
    describe_image_sent_iff_dispatch c p pr f r⟩
  · intro h
    rw [describe_image_notfound c p pr f r h]
    refine ⟨rfl, rfl, ?_, ?_, ?_⟩ <;> simp
  · intro h1 h2
    rw [describe_image_unsupported c p pr f r h1 h2]
    refine ⟨rfl, ?_⟩
    simp

/-- Witness for validation_pipeline_order: a concrete missing file and a
concrete existing .txt file. -/
theorem validation_pipeline_order_witness :
    ((describe_image testClient "/a/missing.png" none missingFile
          (RemoteOutcome.responds (some "x"))).result
        = .error (.fileNotFoundError "Image file not found: /a/missing.png")
      ∧ (describe_image testClient "/a/missing.png" none missingFile
          (RemoteOutcome.responds (some "x"))).trace = [.existsCheck]
      ∧ Event.decodeCheck ∉ (describe_image testClient "/a/missing.png" none
          missingFile (RemoteOutcome.responds (some "x"))).trace
      ∧ Event.readEncode ∉ (describe_image testClient "/a/missing.png" none
          missingFile (RemoteOutcome.responds (some "x"))).trace
      ∧ Event.dispatch ∉ (describe_image testClient "/a/missing.png" none
          missingFile (RemoteOutcome.responds (some "x"))).trace)
    ∧ ((describe_image testClient "/a/t.txt" none txtFile
          (RemoteOutcome.responds (some "x"))).result
        = .error (.valueError (unsupportedFormatMsg ".txt"))
      ∧ Event.dispatch ∉ (describe_image testClient "/a/t.txt" none txtFile
          (RemoteOutcome.responds (some "x"))).trace) :=
  ⟨(validation_pipeline_order testClient "/a/missing.png" none missingFile
      (RemoteOutcome.responds (some "x"))).2.1 rfl,
   (validation_pipeline_order testClient "/a/t.txt" none txtFile
      (RemoteOutcome.responds (some "x"))).2.2.1 rfl (by decide)⟩

/-- Claim C4 counterexample: the extension ".PNG" is outside the supported
set of literal extensions, yet describe_image on an existing valid file named
with it succeeds instead of failing with the UnsupportedFormat error, because
the code lowercases the suffix before the membership test. -/
theorem unsupported_extension_counterexample :
    ".PNG" ∉ supportedKeys
    ∧ (describe_image testClient "/a/t.PNG" none upperPngFile
        (RemoteOutcome.responds (some "a description"))).result
      = .ok "a description" :=
  ⟨by decide, rfl⟩

/-- Claim C4 amended: for every existing path whose lowercased extension is
outside the supported set, describe_image fails with the ValueError whose
message is unsupportedFormatMsg, a message that appends the comma-joined list
of all six supported extensions; supportedKeys enumerates exactly those
extensions. -/
theorem unsupported_extension_rejected (c : OllamaVisionClient) (p : String)
    (pr : Option String) (f : FileModel) (r : RemoteOutcome)
    (h1 : f.pathExists = true)
    (h2 : SUPPORTED_FORMATS.lookup (pyLower f.suffix) = none) :
    (describe_image c p pr f r).result
      = .error (.valueError (unsupportedFormatMsg (pyLower f.suffix)))
    ∧ String.intercalate ", " supportedKeys
      = ".jpg, .jpeg, .png, .gif, .webp, .bmp"
    ∧ supportedKeys = [".jpg", ".jpeg", ".png", ".gif", ".webp", ".bmp"] := by
  refine ⟨?_, by decide, by decide⟩
  rw [describe_image_unsupported c p pr f r h1 h2]

/-- Witness for unsupported_extension_rejected: the existing file t.txt. -/
theorem unsupported_extension_rejected_witness :
    (describe_image testClient "/a/t.txt" none txtFile
        (RemoteOutcome.raises "boom")).result
      = .error (.valueError (unsupportedFormatMsg ".txt"))
    ∧ String.intercalate ", " supportedKeys
      = ".jpg, .jpeg, .png, .gif, .webp, .bmp"
    ∧ supportedKeys = [".jpg", ".jpeg", ".png", ".gif", ".webp", ".bmp"] :=
  unsupported_extension_rejected testClient "/a/t.txt" none txtFile
    (RemoteOutcome.raises "boom") rfl (by decide)

/-- Claim C5 counterexample: ".PNG" is not a key of the lookup table, yet the
MIME type computed for it is image/png, not the claimed default image/jpeg,
because the code lowercases the suffix before the lookup. -/
theorem mime_default_counterexample :
    get_mime_type ".PNG" = "image/png"
    ∧ ".PNG" ∉ supportedKeys
    ∧ "image/png" ≠ "image/jpeg" :=
  ⟨rfl, by decide, by decide⟩

/-- Claim C5 amended: the MIME type is obtained by looking up the lowercased
extension in the fixed table (jpg/jpeg, png, gif, webp, bmp rows as claimed),
and every extension whose lowercased form is outside the table maps to
image/jpeg. -/
theorem mime_lookup_table (ext : String) :
    get_mime_type ".jpg" = "image/jpeg"
    ∧ get_mime_type ".jpeg" = "image/jpeg"
    ∧ get_mime_type ".png" = "image/png"
    ∧ get_mime_type ".gif" = "image/gif"
    ∧ get_mime_type ".webp" = "image/webp"
    ∧ get_mime_type ".bmp" = "image/bmp"
    ∧ (SUPPORTED_FORMATS.lookup (pyLower ext) = none →
        get_mime_type ext = "image/jpeg") := by
  refine ⟨rfl, rfl, rfl, rfl, rfl, rfl, ?_⟩
  intro h
  unfold get_mime_type
  rw [h]
  rfl

/-- Witness for mime_lookup_table at the unsupported extension ".txt". -/
theorem mime_lookup_table_witness :
    get_mime_type ".txt" = "image/jpeg" :=
  (mime_lookup_table ".txt").2.2.2.2.2.2 (by decide)

/-- Claim C10: the extension test and the MIME lookup are case-insensitive:
any extension whose lowercasing equals a supported extension passes the
extension test, and its MIME type agrees with the one of the lowercase
extension. -/
theorem extension_case_insensitive (ext low : String)
    (hmem : low ∈ supportedKeys) (hlow : pyLower ext = low) :
    extension_check ext = .ok ()
    ∧ get_mime_type ext = get_mime_type low := by
  have hcases : low = ".jpg" ∨ low = ".jpeg" ∨ low = ".png" ∨ low = ".gif"
      ∨ low = ".webp" ∨ low = ".bmp" := by
    simpa [supportedKeys, SUPPORTED_FORMATS] using hmem
  have hfix : pyLower low = low := by
    rcases hcases with h | h | h | h | h | h <;> subst h <;> decide
  have hsome : (SUPPORTED_FORMATS.lookup low).isSome := by
    rcases hcases with h | h | h | h | h | h <;> subst h <;> decide
  constructor
  · simp [extension_check, hlow, hsome]
  · simp [get_mime_type, hlow, hfix]

/-- Witness for extension_case_insensitive at ".PNG". -/
theorem extension_case_insensitive_witness :
    extension_check ".PNG" = .ok ()
    ∧ get_mime_type ".PNG" = get_mime_type ".png" :=
  extension_case_insensitive ".PNG" ".png" (by decide) (by decide)

/-- Claim C2 counterexample: with empty response content the call does fail,
but the raise at line 166 happens inside the try block whose except clause
wraps every exception as RuntimeError with the "Ollama Cloud API error: "
message, so the surfaced error is the very same value that a remote-call
failure whose exception text is "Empty response from vision model" produces:
the empty-response failure is not surfaced distinctly from the remote-error
kind. -/
theorem empty_response_counterexample :
    (describe_image testClient "/a/t.png" none goodFile
        (RemoteOutcome.responds (some ""))).result
      = .error (.runtimeError
          "Ollama Cloud API error: Empty response from vision model")
    ∧ (describe_image testClient "/a/t.png" none goodFile
        (RemoteOutcome.raises "Empty response from vision model")).result
      = .error (.runtimeError
          "Ollama Cloud API error: Empty response from vision model") :=
  ⟨rfl, rfl⟩

/-- Claim C2 amended: when the remote call succeeds but the content is absent
or the empty string, describe_image raises instead of returning the empty
string; the generic except clause however wraps that failure in the same
RuntimeError("Ollama Cloud API error: ...") form used for remote and API
failures, distinguished from them only by the embedded message text "Empty
response from vision model". -/
theorem empty_response_raises (c : OllamaVisionClient) (p : String)
    (pr : Option String) (f : FileModel) (content : Option String)
    (h1 : f.pathExists = true)
    (h2 : (SUPPORTED_FORMATS.lookup (pyLower f.suffix)).isSome)
    (h3 : f.pilValid = true) (h4 : f.readOk = true)
    (hc : content = none ∨ content = some "") :
    (describe_image c p pr f (.responds content)).result
      = .error (.runtimeError
          "Ollama Cloud API error: Empty response from vision model")
    ∧ ∀ s, (describe_image c p pr f (.responds content)).result ≠ .ok s := by
  have hd := describe_image_dispatch c p pr f (.responds content) h1 h2 h3 h4
  rcases hc with h | h <;> subst h <;> rw [hd] <;>
    exact ⟨rfl, fun s => by simp⟩

/-- Witness for empty_response_raises at a concrete valid png file and an
empty-string response. -/
theorem empty_response_raises_witness :
    (describe_image testClient "/a/t.png" none goodFile
        (RemoteOutcome.responds (some ""))).result
      = .error (.runtimeError
          "Ollama Cloud API error: Empty response from vision model")
    ∧ ∀ s, (describe_image testClient "/a/t.png" none goodFile
        (RemoteOutcome.responds (some ""))).result ≠ .ok s :=
  empty_response_raises testClient "/a/t.png" none goodFile (some "")
    rfl rfl rfl rfl (Or.inr rfl)

/-- Claim C3 counterexample: the body of OllamaVisionClient.__init__ contains
no credential validation and no raise, so construction with the empty
credential string succeeds and the constructed client stores the empty
credential. -/
theorem empty_credential_counterexample :
    OllamaVisionClient.init "" = .ok
      { api_key := "", base_url := "https://ollama.com/v1",
        model := "qwen3-vl:235b-cloud", temperature := 0.2,
        max_tokens := 1000 } :=
  rfl

/-- Claim C3 amended: the non-empty-credential check lives in the server
bootstrap, not in the client constructor: server.py raises
ValueError("OLLAMA_API_KEY not set") when the environment credential is unset
or empty, so every client the server startup successfully constructs stores
the non-empty environment credential. -/
theorem server_startup_credential_nonempty (envKey : Option String)
    (u m : String) (t : ℚ) (mt : Nat) (c : OllamaVisionClient)
    (h : serverStartup envKey u m t mt = .ok c) :
    c.api_key ≠ ""
    ∧ envKey = some c.api_key
    ∧ serverStartup none u m t mt
        = .error (.valueError "OLLAMA_API_KEY not set")
    ∧ serverStartup (some "") u m t mt
        = .error (.valueError "OLLAMA_API_KEY not set") := by
  have hmain : envKey = some c.api_key ∧ c.api_key ≠ "" := by
    cases envKey with
    | none => simp [serverStartup, pyFalsyOptStr] at h
    | some s =>
      by_cases hs : s = ""
      · subst hs
        simp [serverStartup, pyFalsyOptStr] at h
      · simp [serverStartup, pyFalsyOptStr, hs, OllamaVisionClient.init] at h
        subst h
        exact ⟨rfl, hs⟩
  exact ⟨hmain.2, hmain.1, rfl, rfl⟩

/-- Witness for server_startup_credential_nonempty at the key sk-1. -/
theorem server_startup_credential_nonempty_witness :
    clientSk1.api_key ≠ ""
    ∧ some "sk-1" = some clientSk1.api_key
    ∧ serverStartup none "https://ollama.com/v1" "m" 0.2 1000
        = .error (.valueError "OLLAMA_API_KEY not set")
    ∧ serverStartup (some "") "https://ollama.com/v1" "m" 0.2 1000
        = .error (.valueError "OLLAMA_API_KEY not set") :=
  server_startup_credential_nonempty (some "sk-1") "https://ollama.com/v1"
    "m" 0.2 1000 clientSk1 rfl

/-- Claim C6: every request that reaches the dispatch step carries the
configured model, temperature and max_tokens, and exactly one user-role
message whose content is the two-part array of a text part with the resolved
prompt and an image part with the data:mime;base64,payload URI. -/
theorem dispatched_request_shape (c : OllamaVisionClient) (p : String)
    (pr : Option String) (f : FileModel) (r : RemoteOutcome)
    (req : ChatRequest)
    (h : (describe_image c p pr f r).sent = some req) :
    req.model = c.model
    ∧ req.temperature = c.temperature
    ∧ req.max_tokens = c.max_tokens
    ∧ req.messages
      = [{ role := "user",
           content :=
             [ContentPart.text (resolvePrompt pr),
              ContentPart.image_url ("data:" ++ get_mime_type f.suffix
                ++ ";base64," ++ base64Encode f.bytes)] }] := by
  have hb := describe_image_sent_some c p pr f r req h
  subst hb
  exact ⟨rfl, rfl, rfl, rfl⟩

/-- Witness for dispatched_request_shape at a concrete dispatching run. -/
theorem dispatched_request_shape_witness :
    (buildRequest testClient goodFile none).model = testClient.model
    ∧ (buildRequest testClient goodFile none).temperature
      = testClient.temperature
    ∧ (buildRequest testClient goodFile none).max_tokens
      = testClient.max_tokens
    ∧ (buildRequest testClient goodFile none).messages
      = [{ role := "user",
           content :=
             [ContentPart.text (resolvePrompt none),
              ContentPart.image_url ("data:" ++ get_mime_type goodFile.suffix
                ++ ";base64," ++ base64Encode goodFile.bytes)] }] :=
  dispatched_request_shape testClient "/a/t.png" none goodFile
    (RemoteOutcome.responds (some "ok"))
    (buildRequest testClient goodFile none) rfl

/-- Claim C7: check_connection returns a (reachable, detail) pair for every
outcome of the underlying models.list() call: reachable is true exactly when
that call succeeded, and every failure yields reachable false with a detail
message wrapping the underlying error text; no outcome propagates an
exception. -/
theorem check_connection_status (c : OllamaVisionClient) (o : ListOutcome) :
    ((check_connection c o).1 = true ↔ o = .ok)
    ∧ (∀ e, o = .raises e →
        check_connection c o
          = (false, "Cannot connect to Ollama Cloud: " ++ e))
    ∧ (o = .ok →
        check_connection c o = (true, "Connected to " ++ c.base_url)) := by
  cases o <;> simp [check_connection]

/-- Witness for check_connection_status on a refused connection. -/
theorem check_connection_status_witness :
    check_connection testClient (ListOutcome.raises "Connection refused")
      = (false, "Cannot connect to Ollama Cloud: Connection refused") :=
  (check_connection_status testClient
    (ListOutcome.raises "Connection refused")).2.1 "Connection refused" rfl

/-- Claim C8: the tool-boundary describe_image rejects non-existent paths and
non-regular-file paths before invoking the core client (the Bool component of
the model records whether the core ran), translates every core exception into
a RuntimeError that prepends a non-empty human-readable context to the core
message, and returns a successful value only when the core produced exactly
that value, so no failure is swallowed or turned into a partial result. -/
theorem tool_boundary (c : OllamaVisionClient) (p : String)
    (pr : Option String) (f : FileModel) (r : RemoteOutcome) :
    (f.pathExists = false →
      serverDescribeImage c p pr f r
        = (.error (.runtimeError
            ("File not found: " ++ ("Image file not found: " ++ p))), false))
    ∧ (f.pathExists = true → f.isFile = false →
      serverDescribeImage c p pr f r
        = (.error (.runtimeError
            ("Invalid input: " ++ ("Path is not a file: " ++ p))), false))
    ∧ (∀ e, f.pathExists = true → f.isFile = true →
        (describe_image c p pr f r).result = .error e →
        (serverDescribeImage c p pr f r).1 = .error (translateCoreExc e))
    ∧ (∀ e, ∃ ctx,
        translateCoreExc e = .runtimeError (ctx ++ e.msg) ∧ ctx ≠ "")
    ∧ (∀ d, (serverDescribeImage c p pr f r).1 = .ok d →
        (describe_image c p pr f r).result = .ok d) := by
  refine ⟨?_, ?_, ?_, ?_, ?_⟩
  · intro h
    simp [serverDescribeImage, h, translateCoreExc]
  · intro h1 h2
    simp [serverDescribeImage, h1, h2, translateCoreExc]
  · intro e h1 h2 he
    simp [serverDescribeImage, h1, h2, he]
  · intro e
    cases e with
    | fileNotFoundError m => exact ⟨"File not found: ", rfl, by simp⟩
    | valueError m => exact ⟨"Invalid input: ", rfl, by simp⟩
    | ioError m => exact ⟨"Error describing image: ", rfl, by simp⟩
    | runtimeError m => exact ⟨"Error describing image: ", rfl, by simp⟩
  · intro d h
    cases h1 : f.pathExists with
    | false => simp [serverDescribeImage, h1] at h
    | true =>
      cases h2 : f.isFile with
      | false => simp [serverDescribeImage, h1, h2] at h
      | true =>
        cases hres : (describe_image c p pr f r).result with
        | error e => simp [serverDescribeImage, h1, h2, hres] at h
        | ok v =>
          simp [serverDescribeImage, h1, h2, hres] at h
          rw [h]

/-- Witness for tool_boundary at a concrete missing path. -/
theorem tool_boundary_witness :
    serverDescribeImage testClient "/a/missing.png" none missingFile
        (RemoteOutcome.responds (some "x"))
      = (.error (.runtimeError
          ("File not found: " ++ ("Image file not found: " ++ "/a/missing.png"))),
         false) :=
  (tool_boundary testClient "/a/missing.png" none missingFile
    (RemoteOutcome.responds (some "x"))).1 rfl

/-- Claim C9: an empty caller-supplied prompt is treated exactly like an
absent prompt (the two runs are equal in result, trace and sent request); a
run with an absent prompt dispatches the default prompt text, and a run with
a non-empty prompt dispatches that prompt unchanged. -/
theorem prompt_defaulting (c : OllamaVisionClient) (p : String)
    (f : FileModel) (r : RemoteOutcome) :
    describe_image c p (some "") f r = describe_image c p none f r
    ∧ resolvePrompt none = DEFAULT_PROMPT
    ∧ resolvePrompt (some "") = DEFAULT_PROMPT
    ∧ (∀ req, (describe_image c p none f r).sent = some req →
        req.messages
          = [{ role := "user",
               content :=
                 [ContentPart.text DEFAULT_PROMPT,
                  ContentPart.image_url ("data:" ++ get_mime_type f.suffix
                    ++ ";base64," ++ base64Encode f.bytes)] }])
    ∧ (∀ s, s ≠ "" → ∀ req,
        (describe_image c p (some s) f r).sent = some req →
        req.messages
          = [{ role := "user",
               content :=
                 [ContentPart.text s,
                  ContentPart.image_url ("data:" ++ get_mime_type f.suffix
                    ++ ";base64," ++ base64Encode f.bytes)] }]) := by
  refine ⟨rfl, rfl, rfl, ?_, ?_⟩
  · intro req h
    have hb := describe_image_sent_some c p none f r req h
    subst hb
    rfl
  · intro s hs req h
    have hb := describe_image_sent_some c p (some s) f r req h
    subst hb
    simp [buildRequest, resolvePrompt, hs]

/-- Witness for prompt_defaulting at a concrete valid run. -/
theorem prompt_defaulting_witness :
    describe_image testClient "/a/t.png" (some "") goodFile
        (RemoteOutcome.responds (some "ok"))
      = describe_image testClient "/a/t.png" none goodFile
          (RemoteOutcome.responds (some "ok"))
    ∧ (buildRequest testClient goodFile none).messages
      = [{ role := "user",
           content :=
             [ContentPart.text DEFAULT_PROMPT,
              ContentPart.image_url ("data:" ++ get_mime_type goodFile.suffix
                ++ ";base64," ++ base64Encode goodFile.bytes)] }] :=
  ⟨(prompt_defaulting testClient "/a/t.png" goodFile
      (RemoteOutcome.responds (some "ok"))).1,
   (prompt_defaulting testClient "/a/t.png" goodFile
      (RemoteOutcome.responds (some "ok"))).2.2.2.1
     (buildRequest testClient goodFile none) rfl⟩
